import Mathlib

/-!
Shallow embedding of the asynchronous metrics & analytics ingestion pipeline
implemented in `backend/metrics_collector.py` (class `MetricsCollector`),
together with the parts of `backend/chat_service.py` and
`backend/agent_models.py` it reads.

Conventions of the embedding:
* Python `dict` payloads become structures whose fields are `Option`-typed
  when the corresponding key may be absent; Python truthiness
  (`if not data.get(k)`) is modelled by the `truthy*` helpers below
  (`None`, `0`, `0.0`, `""` and `[]` are falsy).
* Timestamps are abstract integers (seconds); `datetime.now()` becomes an
  explicit `now : Time` argument.
* Floats (`cost_estimate`, `avg_response_time_ms`) are modelled as `Rat`.
* Fallible effects (broker, serialization, persistence, classification
  engine) are driven by explicit fault flags; a Python `try/except`
  becomes a `match` on an `Except` value, so an operation that catches
  everything returns `.ok` for every fault assignment.
-/

namespace Metrics

/-- Timestamps as integer seconds (abstraction of `datetime`). -/
abbrev Time := Int

/-- Python truthiness of an optional integer (`None` and `0` are falsy). -/
def truthyNat : Option Nat → Bool
  | none => false
  | some n => n ≠ 0

/-- Python truthiness of an optional string (`None` and `""` are falsy). -/
def truthyStr : Option String → Bool
  | none => false
  | some s => s ≠ ""

/-- Python truthiness of an optional rational (`None` and `0.0` are falsy). -/
def truthyRat : Option Rat → Bool
  | none => false
  | some q => q ≠ 0

/-! ## Utility functions (`estimate_tokens`, `calculate_cost`) -/

/-- `MetricsCollector.estimate_tokens`: `len(text) // 4`, `0` for empty/absent. -/
def estimate_tokens (text : String) : Nat :=
  if text = "" then 0 else text.length / 4

/-- Per-model price table of `MetricsCollector.calculate_cost`
(USD per 1M tokens, input and output). -/
def pricing : List (String × Rat × Rat) :=
  [("gpt-5", 15, 60),
   ("gpt-5-mini", 2, 8),
   ("gpt-4.1", 10, 30),
   ("gpt-4o", 5, 15),
   ("gpt-4o-mini", (15 : Rat)/100, (60 : Rat)/100),
   ("claude-opus-4.1", 15, 75),
   ("claude-sonnet-4", 3, 15),
   ("claude-sonnet-3.7", 3, 15),
   ("claude-3.5-sonnet", 3, 15)]

/-- `MetricsCollector.calculate_cost`: table lookup with default prices
`(1.0, 3.0)` for unknown models. -/
def calculate_cost (model : String) (input_tokens output_tokens : Nat) : Rat :=
  let p := ((pricing.find? (fun e => e.1 = model)).map (·.2)).getD (1, 3)
  (input_tokens : Rat) / 1000000 * p.1 + (output_tokens : Rat) / 1000000 * p.2

/-! ## Event payloads -/

/-- Payload of `collect_execution_metrics` (a Python dict; absent keys are
`none`). -/
structure ExecEvent where
  agent_id : Option Nat := none
  session_id : Option String := none
  model : Option String := none
  input_text : Option String := none
  output_text : Option String := none
  input_tokens : Option Nat := none
  output_tokens : Option Nat := none
  cost_estimate : Option Rat := none
  execution_time : Option Nat := none
  execution_time_ms : Option Nat := none
  tools_used : List String := []
  operation_type : Option String := none
  timestamp : Option Time := none
  deriving Repr, DecidableEq

/-- Payload of `collect_content_metrics`. -/
structure ContentEvent where
  session_id : Option String := none
  agent_id : Option Nat := none
  message_content : Option String := none
  confidence_score : Option Rat := none
  timestamp : Option Time := none
  deriving Repr, DecidableEq

/-- Payload of `collect_session_metrics`. -/
structure SessionEvent where
  session_id : Option String := none
  user_id : Option String := none
  agent_id : Option Nat := none
  team_id : Option Nat := none
  message_count : Option Nat := none
  duration_seconds : Option Nat := none
  timestamp : Option Time := none
  deriving Repr, DecidableEq

/-- One message of a conversation transcript
(`{sender, content, ...}` dict). -/
structure ClassMsg where
  sender : Option String := none
  content : Option String := none
  deriving Repr, DecidableEq

/-- `conversation_data` dict passed to `request_conversation_classification`. -/
structure ConversationData where
  session_id : Option String := none
  messages : List ClassMsg := []
  total_messages : Option Nat := none
  trigger_reason : Option String := none
  user_id : Option String := none
  agent_id : Option Nat := none
  team_id : Option Nat := none
  deriving Repr, DecidableEq

/-- Envelope built by `request_conversation_classification`
(the nondeterministic `request_id`/`timestamp` fields are omitted:
no behaviour reads them). -/
structure ClassificationData where
  session_id : String
  conversation_data : ConversationData
  deriving Repr, DecidableEq

/-! ## Derivation of missing execution fields -/

/-- Field derivation performed by `collect_execution_metrics`
(lines 91–102) before enqueueing: estimate missing (falsy) token counts
from the texts, then estimate the cost when absent and both token counts
are truthy. -/
def deriveExecQueuePath (d : ExecEvent) : ExecEvent :=
  let d1 := if ¬ truthyNat d.input_tokens ∧ truthyStr d.input_text then
      { d with input_tokens := some (estimate_tokens (d.input_text.getD "")) }
    else d
  let d2 := if ¬ truthyNat d1.output_tokens ∧ truthyStr d1.output_text then
      { d1 with output_tokens := some (estimate_tokens (d1.output_text.getD "")) }
    else d1
  if ¬ truthyRat d2.cost_estimate ∧ truthyNat d2.input_tokens ∧ truthyNat d2.output_tokens then
    { d2 with cost_estimate := some (calculate_cost (d2.model.getD "gpt-4o-mini")
        (d2.input_tokens.getD 0) (d2.output_tokens.getD 0)) }
  else d2

/-- Field derivation performed by `_save_execution_to_db` (lines 765–774):
same token estimation, but the cost is recomputed whenever falsy
(without requiring truthy token counts), with `0` defaults. -/
def deriveExecDirectPath (d : ExecEvent) : ExecEvent :=
  let d1 := if ¬ truthyNat d.input_tokens ∧ truthyStr d.input_text then
      { d with input_tokens := some (estimate_tokens (d.input_text.getD "")) }
    else d
  let d2 := if ¬ truthyNat d1.output_tokens ∧ truthyStr d1.output_text then
      { d1 with output_tokens := some (estimate_tokens (d1.output_text.getD "")) }
    else d1
  if ¬ truthyRat d2.cost_estimate then
    { d2 with cost_estimate := some (calculate_cost (d2.model.getD "gpt-4o-mini")
        (d2.input_tokens.getD 0) (d2.output_tokens.getD 0)) }
  else d2

/-! ## Relational rows (`backend/agent_models.py`) -/

/-- A `token_usage` row as written by this pipeline. -/
structure TokenUsageRow where
  agent_id : Option Nat
  session_id : Option String
  model_used : String
  input_tokens : Nat
  output_tokens : Nat
  cost_estimate : Rat
  operation_type : String
  created_at : Time
  deriving Repr, DecidableEq

/-- An `agent_executions` row as written by this pipeline. -/
structure AgentExecutionRow where
  agent_id : Option Nat
  input_text : String
  output_text : String
  tools_used : List String
  execution_time_ms : Nat
  tokens_used : Nat
  created_at : Time
  deriving Repr, DecidableEq

/-- A `performance_metrics` row (conflict key `(agent_id, metric_date)`;
`avg_response_time_ms` is a SQL float, modelled as `Rat`). -/
structure PerformanceRow where
  agent_id : Option Nat
  metric_date : Time
  total_interactions : Nat
  avg_response_time_ms : Rat
  tokens_consumed : Nat
  deriving Repr, DecidableEq

/-- A `user_metrics` row (conflict key `(user_id, session_id)`). -/
structure UserMetricsRow where
  user_id : String
  session_id : Option String
  agent_id : Option Nat
  team_id : Option Nat
  total_messages : Nat
  session_duration_seconds : Nat
  created_at : Time
  updated_at : Time
  deriving Repr, DecidableEq

/-- A `content_topics` row. -/
structure ContentTopicsRow where
  session_id : Option String
  agent_id : Option Nat
  extracted_topics : List String
  message_content : Option String
  topic_keywords : List String
  confidence_score : Rat
  created_at : Time
  deriving Repr, DecidableEq

/-- A `user_feedback` row. `auto_generated` has column default `False`
(`agent_models.py` line 233), used whenever an INSERT omits the column. -/
structure UserFeedbackRow where
  session_id : String
  user_id : String
  agent_id : Option Nat
  team_id : Option Nat
  rating : Nat
  issue_category : Option String
  feedback_comment : Option String
  sentiment : Option String
  auto_generated : Bool
  created_at : Time
  deriving Repr, DecidableEq

/-- A `chat_sessions` row (`session_id` is the frontend UUID, unique). -/
structure ChatSessionRow where
  id : Nat
  session_id : String
  team_id : Option Nat
  agent_id : Option Nat
  last_activity : Time
  deriving Repr, DecidableEq

/-- A `chat_messages` row (`session_id` references `chat_sessions.id`). -/
structure ChatMessageRow where
  session_id : Nat
  message_type : String
  content : String
  created_at : Time
  deriving Repr, DecidableEq

/-- The relational store: each table as an insertion-ordered list of rows. -/
structure DB where
  token_usage : List TokenUsageRow := []
  agent_executions : List AgentExecutionRow := []
  performance_metrics : List PerformanceRow := []
  user_metrics : List UserMetricsRow := []
  content_topics : List ContentTopicsRow := []
  user_feedback : List UserFeedbackRow := []
  chat_sessions : List ChatSessionRow := []
  chat_messages : List ChatMessageRow := []
  deriving Repr, DecidableEq

/-! ## Execution batch processing (`_process_execution_batch`, lines 282–358) -/

/-- `token_usage` values of the batch path (lines 299–308). -/
def tokenUsageRowOfItem (now : Time) (item : ExecEvent) : TokenUsageRow where
  agent_id := item.agent_id
  session_id := item.session_id
  model_used := item.model.getD "unknown"
  input_tokens := item.input_tokens.getD 0
  output_tokens := item.output_tokens.getD 0
  cost_estimate := item.cost_estimate.getD 0
  operation_type := item.operation_type.getD "chat"
  created_at := item.timestamp.getD now

/-- `agent_executions` values of the batch path (lines 321–328):
texts truncated to 1000/2000 characters. -/
def agentExecutionRowOfItem (now : Time) (item : ExecEvent) : AgentExecutionRow where
  agent_id := item.agent_id
  input_text := (item.input_text.getD "").take 1000
  output_text := (item.output_text.getD "").take 2000
  tools_used := item.tools_used
  execution_time_ms := item.execution_time.getD (item.execution_time_ms.getD 0)
  tokens_used := item.input_tokens.getD 0 + item.output_tokens.getD 0
  created_at := item.timestamp.getD now

/-- The `INSERT ... ON CONFLICT (agent_id, metric_date) DO UPDATE` of
lines 331–349: first insert stores `(1, response_time, tokens)`, a conflict
updates `total_interactions + 1`, `(avg + response_time) / 2`,
`tokens_consumed + tokens`. -/
def upsertPerformance (rows : List PerformanceRow) (agent : Option Nat)
    (date : Time) (response_time : Nat) (tokens : Nat) : List PerformanceRow :=
  if rows.any (fun r => r.agent_id = agent ∧ r.metric_date = date) then
    rows.map (fun r =>
      if r.agent_id = agent ∧ r.metric_date = date then
        { r with
          total_interactions := r.total_interactions + 1
          avg_response_time_ms := (r.avg_response_time_ms + (response_time : Rat)) / 2
          tokens_consumed := r.tokens_consumed + tokens }
      else r)
  else
    rows ++ [⟨agent, date, 1, (response_time : Rat), tokens⟩]

/-- Processing of one dequeued execution item (body of the loop in
`_process_execution_batch`): conditional `token_usage` insert, conditional
`agent_executions` insert, unconditional `performance_metrics` upsert. -/
def processExecutionItem (now today : Time) (db : DB) (item : ExecEvent) : DB :=
  let db :=
    if truthyNat item.input_tokens ∨ truthyNat item.output_tokens then
      { db with token_usage := db.token_usage ++ [tokenUsageRowOfItem now item] }
    else db
  let db :=
    if truthyNat item.agent_id then
      { db with agent_executions := db.agent_executions ++ [agentExecutionRowOfItem now item] }
    else db
  { db with performance_metrics :=
      (upsertPerformance db.performance_metrics item.agent_id today
        (item.execution_time_ms.getD 0)
        (item.input_tokens.getD 0 + item.output_tokens.getD 0)) }

/-- `_process_execution_batch` on its success path (the whole batch commits
atomically; the failure path rolls everything back and is modelled at the
worker level). -/
def process_execution_batch (now today : Time) (items : List ExecEvent) (db : DB) : DB :=
  items.foldl (processExecutionItem now today) db

/-! ## Topic and keyword extraction (`_extract_topics`, `_extract_keywords`) -/

/-- A regex word character (`\w`); non-ASCII characters (accented letters in
the Portuguese patterns) count as word characters. -/
def isWordChar (c : Char) : Bool :=
  c.isAlphanum || c = '_' || c.val ≥ 128

/-- Maximal runs of word characters of a character list (the matches of
`\b\w+\b`), accumulator-style. -/
def wordRunsAux : List Char → List Char → List String
  | [], acc => if acc.isEmpty then [] else [String.mk acc.reverse]
  | c :: cs, acc =>
    if isWordChar c then wordRunsAux cs (c :: acc)
    else if acc.isEmpty then wordRunsAux cs []
    else String.mk acc.reverse :: wordRunsAux cs []

/-- Maximal word-character runs of a string. -/
def wordRuns (s : String) : List String :=
  wordRunsAux s.toList []

/-- The `topic_patterns` table of `_extract_topics` (lines 665–675): each
pattern is an alternation of whole words. -/
def topic_patterns : List (String × List String) :=
  [("freios", ["freio", "freios", "frenagem", "pastilha", "disco", "tambor"]),
   ("motor", ["motor", "motores", "arranque", "partida", "combustão"]),
   ("hidráulico", ["hidráulico", "hidráulica", "óleo", "fluido", "pressão"]),
   ("elétrico", ["elétrico", "elétrica", "bateria", "alternador", "fiação"]),
   ("pneu", ["pneu", "pneus", "roda", "rodas", "pressão", "calibragem"]),
   ("manutenção", ["manutenção", "manutenções", "preventiva", "corretiva", "revisão"]),
   ("peças", ["peça", "peças", "componente", "componentes", "reposição"]),
   ("problema", ["problema", "problemas", "defeito", "defeitos", "falha", "falhas"]),
   ("configuração", ["configuração", "configurar", "ajuste", "calibração"])]

/-- `MetricsCollector._extract_topics`: a topic is reported when one of its
pattern words occurs as a whole word in the lowercased text. -/
def _extract_topics (text : String) : List String :=
  let words := wordRuns text.toLower
  (topic_patterns.filter (fun p => p.2.any (fun w => words.contains w))).map (·.1)

/-- Stop words of `_extract_keywords` (line 689). -/
def stop_words : List String :=
  ["a", "o", "e", "de", "da", "do", "em", "um", "uma", "para", "com",
   "não", "que", "se", "por"]

/-- First occurrence of each element, in order of first appearance
(the key order of a Python `Counter`). -/
def firstSeen (l : List String) : List String :=
  l.foldl (fun acc w => if acc.contains w then acc else acc ++ [w]) []

/-- `MetricsCollector._extract_keywords`: word runs of length ≥ 3 of the
lowercased text, minus stop words; the 10 most frequent, ordered by count
descending (stable in first-appearance order, as `Counter.most_common`). -/
def _extract_keywords (text : String) : List String :=
  let kws := ((wordRuns text.toLower).filter (fun w => 3 ≤ w.length)).filter
    (fun w => ¬ stop_words.contains w)
  let tally := (firstSeen kws).map (fun w => (w, kws.count w))
  ((tally.insertionSort (fun a b => b.2 ≤ a.2)).take 10).map (·.1)

/-! ## Content and session processing -/

/-- The `content_topics` row of `_process_content_analysis` (lines 374–390):
written only when at least one topic was extracted; content truncated to
500 characters; `confidence_score` from the payload with default `0.8`. -/
def contentTopicsRowOfData (now : Time) (data : ContentEvent) : ContentTopicsRow where
  session_id := data.session_id
  agent_id := data.agent_id
  extracted_topics := _extract_topics (data.message_content.getD "")
  message_content := some ((data.message_content.getD "").take 500)
  topic_keywords := _extract_keywords (data.message_content.getD "")
  confidence_score := data.confidence_score.getD ((8 : Rat)/10)
  created_at := data.timestamp.getD now

/-- `_process_content_analysis` on its success path. -/
def process_content_analysis (now : Time) (data : ContentEvent) (db : DB) : DB :=
  if _extract_topics (data.message_content.getD "") ≠ [] then
    { db with content_topics := db.content_topics ++ [contentTopicsRowOfData now data] }
  else db

/-- The `INSERT ... ON CONFLICT (user_id, session_id) DO UPDATE` of
`_process_session_metrics` (lines 410–428): a conflict adds the message count
and refreshes `updated_at`; the insert leaves `team_id` at its column
default (the batch path does not set it). -/
def upsertUserMetrics (rows : List UserMetricsRow) (user : String)
    (session : Option String) (agent : Option Nat) (team : Option Nat)
    (messages : Nat) (duration : Nat) (ts : Time) : List UserMetricsRow :=
  if rows.any (fun r => r.user_id = user ∧ r.session_id = session) then
    rows.map (fun r =>
      if r.user_id = user ∧ r.session_id = session then
        { r with
          total_messages := r.total_messages + messages
          updated_at := ts }
      else r)
  else
    rows ++ [⟨user, session, agent, team, messages, duration, ts, ts⟩]

/-- `_process_session_metrics` on its success path. -/
def process_session_metrics (now : Time) (data : SessionEvent) (db : DB) : DB :=
  { db with user_metrics :=
      (upsertUserMetrics db.user_metrics (data.user_id.getD "anonymous")
        data.session_id data.agent_id none (data.message_count.getD 1)
        (data.duration_seconds.getD 0) (data.timestamp.getD now)) }

/-! ## Conversation classification (`_process_conversation_classification`) -/

/-- Structured output expected from the Classification Engine
(the JSON object of the classifier prompt). -/
structure Classification where
  topics : List String := []
  sentiment : Option String := none
  satisfaction : Option Nat := none
  category : Option String := none
  complexity : Option String := none
  keywords : List String := []
  summary : Option String := none
  deriving Repr, DecidableEq

/-- Outcome of one Classification Engine call, as seen after the JSON
extraction of lines 506–516: engine failure, a non-JSON response, or a
parsed object. -/
inductive EngineOutcome where
  | failure
  | unparseable
  | parsed (c : Classification)
  deriving Repr, DecidableEq

/-- The transcript lines sent to the engine (lines 486–489): the last 10
messages, each rendered as `sender: content[:200]` with defaults
`'user'` and `''`. -/
def conversationLines (messages : List ClassMsg) : List String :=
  (messages.drop (messages.length - 10)).map
    (fun msg => msg.sender.getD "user" ++ ": " ++ (msg.content.getD "").take 200)

/-- `conversation_text`: the transcript lines joined with newlines. -/
def conversation_text (messages : List ClassMsg) : String :=
  String.intercalate "\n" (conversationLines messages)

/-- The `user_feedback` row inserted by `_process_conversation_classification`
(lines 519–535). The INSERT names neither `sentiment` nor `auto_generated`,
so both take their column defaults (`NULL` and `False`). -/
def feedbackRowOfClassification (now : Time) (data : ClassificationData)
    (c : Classification) : UserFeedbackRow where
  session_id := data.session_id
  user_id := data.conversation_data.user_id.getD "classified"
  agent_id := data.conversation_data.agent_id
  team_id := none
  rating := c.satisfaction.getD 3
  issue_category := some (c.category.getD "geral")
  feedback_comment := some (c.summary.getD "Classificação automática")
  sentiment := none
  auto_generated := false
  created_at := now

/-- The `content_topics` row inserted for a parsed classification with at
least one topic (lines 540–555). -/
def topicsRowOfClassification (now : Time) (data : ClassificationData)
    (c : Classification) : ContentTopicsRow where
  session_id := some data.session_id
  agent_id := data.conversation_data.agent_id
  extracted_topics := c.topics
  message_content := none
  topic_keywords := c.keywords
  confidence_score := (9 : Rat)/10
  created_at := now

/-- `_process_conversation_classification` (lines 439–569). The engine is an
oracle from the transcript to an `EngineOutcome`; `db_fails` models a
persistence failure (nothing committed). Every failure is swallowed, so the
result is a plain state. -/
def process_conversation_classification
    (engine : String → EngineOutcome) (db_fails : Bool)
    (now : Time) (data : ClassificationData) (db : DB) : DB :=
  match engine (conversation_text data.conversation_data.messages) with
  | .failure => db
  | .unparseable => db
  | .parsed c =>
    if db_fails then db
    else
      let db := { db with user_feedback :=
        db.user_feedback ++ [feedbackRowOfClassification now data c] }
      if c.topics ≠ [] then
        { db with content_topics := db.content_topics ++ [topicsRowOfClassification now data c] }
      else db

/-! ## Chat service (`backend/chat_service.py`) -/

/-- `ChatService.get_chat_history`: resolve the frontend session id, then the
session's messages ordered by `created_at` ascending, limited (default 20). -/
def get_chat_history (db : DB) (session_id : String) (limit : Nat := 20) :
    List ChatMessageRow :=
  match db.chat_sessions.find? (fun cs => cs.session_id = session_id) with
  | none => []
  | some sess =>
    ((db.chat_messages.filter (fun m => m.session_id = sess.id)).insertionSort
      (fun a b => a.created_at ≤ b.created_at)).take limit

/-! ## Collector state, queues and faults -/

/-- An entry of the in-memory `active_sessions` cache (lines 135–142). -/
structure SessionRecord where
  user_id : Option String
  agent_id : Option Nat
  team_id : Option Nat
  start_time : Time
  message_count : Nat
  last_activity : Time
  deriving Repr, DecidableEq

/-- The four Redis lists. `lpush` prepends, `brpop` pops from the tail, so a
list reads newest-first. -/
structure Queues where
  execution : List ExecEvent := []
  content : List ContentEvent := []
  session : List SessionEvent := []
  classification : List ClassificationData := []
  deriving Repr, DecidableEq

/-- The `MetricsCollector` in-process state. `redis_client_set` models
`self.redis_client is not None` — the test of every `if not
self.redis_client:` guard. `initialize` (line 42) assigns the handle
*before* the ping on line 43 and `redis.from_url` does no network I/O, so
the flag is `true` once `initialize` has run even when the ping failed;
`false` models a collector on which `initialize` was never called. -/
structure Collector where
  redis_client_set : Bool
  active_sessions : List (String × SessionRecord) := []
  deriving Repr, DecidableEq

/-- Whole-system state: collector, broker queues, relational store, log. -/
structure SysState where
  collector : Collector
  queues : Queues := {}
  db : DB := {}
  logs : List String := []
  deriving Repr, DecidableEq

/-- Internal failure kinds (§7 taxonomy: broker, serialization,
persistence). Engine failures are carried by `EngineOutcome`. -/
inductive Err where
  | broker
  | serialization
  | persistence
  deriving Repr, DecidableEq

/-- Fault injection: which fallible collaborators fail during a call. -/
structure Faults where
  serialize_fails : Bool := false
  enqueue_fails : Bool := false
  db_fails : Bool := false
  deriving Repr, DecidableEq

/-- No fault. -/
def Faults.none : Faults := {}

/-- Append a log line. -/
def SysState.log (s : SysState) (msg : String) : SysState :=
  { s with logs := s.logs ++ [msg] }

/-- `json.dumps` followed by `lpush`, as an effect that can raise. -/
def enqueueResult (f : Faults) : Except Err Unit :=
  if f.serialize_fails then .error .serialization
  else if f.enqueue_fails then .error .broker
  else .ok ()

/-- `MetricsCollector.initialize`, as reached through `init_metrics_system`
(lines 39–48 and 951–957): line 42 assigns
`self.redis_client = redis.from_url(...)` — no network I/O — and only then
line 43 pings; a ping failure is caught and reported as `False`, but the
handle stays assigned. -/
def init_metrics_system (ping_fails : Bool) (s : SysState) : SysState × Bool :=
  let s := { s with collector := { s.collector with redis_client_set := true } }
  if ping_fails then (s.log "❌ Erro ao conectar Redis", false) else (s, true)

/-! ## Direct persistence fallbacks (no Redis) -/

/-- `token_usage` values of the direct path (lines 785–794): note the model
default is `'gpt-4o-mini'` (the batch path uses `'unknown'`) and
`created_at` is the wall clock, not the event timestamp. -/
def tokenUsageRowDirect (now : Time) (d : ExecEvent) : TokenUsageRow where
  agent_id := d.agent_id
  session_id := d.session_id
  model_used := d.model.getD "gpt-4o-mini"
  input_tokens := d.input_tokens.getD 0
  output_tokens := d.output_tokens.getD 0
  cost_estimate := d.cost_estimate.getD 0
  operation_type := d.operation_type.getD "chat"
  created_at := now

/-- `agent_executions` values of the direct path (lines 805–813). -/
def agentExecutionRowDirect (now : Time) (d : ExecEvent) : AgentExecutionRow where
  agent_id := d.agent_id
  input_text := (d.input_text.getD "").take 1000
  output_text := (d.output_text.getD "").take 2000
  tools_used := d.tools_used
  execution_time_ms := d.execution_time.getD (d.execution_time_ms.getD 0)
  tokens_used := d.input_tokens.getD 0 + d.output_tokens.getD 0
  created_at := now

/-- `_save_execution_to_db` (lines 758–822): re-derive fields, insert both
rows unconditionally, commit; a persistence failure rolls everything back
and is logged. No `performance_metrics` upsert happens on this path. -/
def save_execution_to_db (f : Faults) (now : Time) (d : ExecEvent) (s : SysState) : SysState :=
  if f.db_fails then s.log "save_execution_to_db failed"
  else
    let d := deriveExecDirectPath d
    { s with db := { s.db with
        token_usage := s.db.token_usage ++ [tokenUsageRowDirect now d]
        agent_executions := s.db.agent_executions ++ [agentExecutionRowDirect now d] } }

/-- `_save_content_to_db` (lines 824–861): same extraction logic as the
worker path, fixed confidence `0.8`, wall-clock timestamp. -/
def save_content_to_db (f : Faults) (now : Time) (data : ContentEvent) (s : SysState) : SysState :=
  if f.db_fails then s.log "save_content_to_db failed"
  else
    let content := data.message_content.getD ""
    if _extract_topics content ≠ [] then
      { s with db := { s.db with content_topics := s.db.content_topics ++
          [{ contentTopicsRowOfData now data with
              confidence_score := (8 : Rat)/10, created_at := now }] } }
    else s

/-- `_save_session_to_db` (lines 863–897): like the worker upsert but also
naming `team_id`, with wall-clock timestamps. -/
def save_session_to_db (f : Faults) (now : Time) (data : SessionEvent) (s : SysState) : SysState :=
  if f.db_fails then s.log "save_session_to_db failed"
  else
    { s with db := { s.db with user_metrics :=
        (upsertUserMetrics s.db.user_metrics (data.user_id.getD "anonymous")
          data.session_id data.agent_id data.team_id (data.message_count.getD 1)
          (data.duration_seconds.getD 0) now) } }

/-! ## Ingestion API (the four `collect_*` / `request_*` entry points)

Each operation is translated together with its `try/except`: the body is an
`Except Err`-valued computation (sub-effects can raise), and the operation
is the body with the source's catch-all handler around it. -/

/-- Body of `collect_execution_metrics` (lines 83–105). -/
def collect_execution_metrics_body (f : Faults) (now : Time) (d : ExecEvent)
    (s : SysState) : Except Err SysState :=
  if ¬ s.collector.redis_client_set then
    .ok (save_execution_to_db f now d s)
  else
    let d := deriveExecQueuePath d
    match enqueueResult f with
    | .error e => .error e
    | .ok _ => .ok { s with queues := { s.queues with execution := d :: s.queues.execution } }

/-- `collect_execution_metrics`: body plus the catch-all of lines 106–107. -/
def collect_execution_metrics (f : Faults) (now : Time) (d : ExecEvent)
    (s : SysState) : Except Err SysState :=
  match collect_execution_metrics_body f now d s with
  | .ok s' => .ok s'
  | .error _ => .ok (s.log "collect_execution_metrics error")

/-- Body of `collect_content_metrics` (lines 111–118). -/
def collect_content_metrics_body (f : Faults) (now : Time) (d : ContentEvent)
    (s : SysState) : Except Err SysState :=
  if ¬ s.collector.redis_client_set then
    .ok (save_content_to_db f now d s)
  else
    match enqueueResult f with
    | .error e => .error e
    | .ok _ => .ok { s with queues := { s.queues with content := d :: s.queues.content } }

/-- `collect_content_metrics`: body plus the catch-all of lines 119–120. -/
def collect_content_metrics (f : Faults) (now : Time) (d : ContentEvent)
    (s : SysState) : Except Err SysState :=
  match collect_content_metrics_body f now d s with
  | .ok s' => .ok s'
  | .error _ => .ok (s.log "collect_content_metrics error")

/-- Session Activity Cache update of lines 133–142 (dict assignment:
replace or append). -/
def updateActiveSessions (now : Time) (d : SessionEvent)
    (cache : List (String × SessionRecord)) : List (String × SessionRecord) :=
  match d.session_id with
  | none => cache
  | some sid =>
    if ¬ truthyStr (some sid) then cache
    else
      let entry : SessionRecord :=
        ⟨d.user_id, d.agent_id, d.team_id, d.timestamp.getD now,
         d.message_count.getD 1, now⟩
      if cache.any (fun e => e.1 = sid) then
        cache.map (fun e => if e.1 = sid then (sid, entry) else e)
      else cache ++ [(sid, entry)]

/-- Body of `collect_session_metrics` (lines 124–144): enqueue, then update
the cache (an enqueue failure skips the cache update). -/
def collect_session_metrics_body (f : Faults) (now : Time) (d : SessionEvent)
    (s : SysState) : Except Err SysState :=
  if ¬ s.collector.redis_client_set then
    .ok (save_session_to_db f now d s)
  else
    match enqueueResult f with
    | .error e => .error e
    | .ok _ => .ok { s with
        queues := { s.queues with session := d :: s.queues.session }
        collector := { s.collector with
          active_sessions := updateActiveSessions now d s.collector.active_sessions } }

/-- `collect_session_metrics`: body plus the catch-all of lines 145–146. -/
def collect_session_metrics (f : Faults) (now : Time) (d : SessionEvent)
    (s : SysState) : Except Err SysState :=
  match collect_session_metrics_body f now d s with
  | .ok s' => .ok s'
  | .error _ => .ok (s.log "collect_session_metrics error")

/-- `request_conversation_classification` (lines 148–179): without Redis the
request is processed synchronously; with Redis it is enqueued, and an
enqueue failure falls back to synchronous processing, itself guarded by a
second catch-all. -/
def request_conversation_classification (engine : String → EngineOutcome)
    (f : Faults) (now : Time) (session_id : String) (conv : ConversationData)
    (s : SysState) : Except Err SysState :=
  let data : ClassificationData := ⟨session_id, conv⟩
  if ¬ s.collector.redis_client_set then
    .ok { s with db := process_conversation_classification engine f.db_fails now data s.db }
  else
    match enqueueResult f with
    | .ok _ => .ok { s with queues :=
        { s.queues with classification := data :: s.queues.classification } }
    | .error _ =>
      let s := s.log "request_conversation_classification error"
      .ok { s with db := process_conversation_classification engine f.db_fails now data s.db }

/-! ## Worker loops (one iteration each)

Poll timeouts are the literal `timeout=` arguments of the `brpop` calls. -/

/-- `brpop` timeout of `_execution_worker` (line 194). -/
def EXECUTION_POLL_TIMEOUT : Nat := 1

/-- `brpop` timeout of `_content_worker` (line 213). -/
def CONTENT_POLL_TIMEOUT : Nat := 5

/-- `brpop` timeout of `_session_worker` (line 228). -/
def SESSION_POLL_TIMEOUT : Nat := 5

/-- `brpop` timeout of `_classification_worker` (line 243). -/
def CLASSIFICATION_POLL_TIMEOUT : Nat := 10

/-- Batch bound of `_execution_worker` (`for _ in range(10)`, line 193). -/
def EXECUTION_BATCH_LIMIT : Nat := 10

/-- `brpop` on a newest-first list: pop the oldest element (the tail). -/
def brpop (q : List α) : Option α × List α :=
  match q.getLast? with
  | none => (none, q)
  | some x => (some x, q.dropLast)

/-- The batch-collection loop of `_execution_worker` (lines 192–198):
pop until the bound is reached or the queue answers empty. Returns the
collected items in pop order and the remaining queue. -/
def pop_batch : Nat → List α → List α × List α
  | 0, q => ([], q)
  | n + 1, q =>
    match brpop q with
    | (none, q') => ([], q')
    | (some x, q') =>
      let (xs, q'') := pop_batch n q'
      (x :: xs, q'')

/-- One iteration of `_execution_worker` (lines 189–205): pop up to 10
items, process the batch only when at least one arrived; a batch failure
rolls back (nothing persisted) and is logged. -/
def execution_worker_iteration (f : Faults) (now today : Time) (s : SysState) : SysState :=
  let (items, q') := pop_batch EXECUTION_BATCH_LIMIT s.queues.execution
  let s := { s with queues := { s.queues with execution := q' } }
  if items.isEmpty then s
  else if f.db_fails then s.log "execution batch failed"
  else { s with db := process_execution_batch now today items s.db }

/-- One iteration of `_content_worker` (lines 211–220): a single `brpop`. -/
def content_worker_iteration (f : Faults) (now : Time) (s : SysState) : SysState :=
  let (item, q') := brpop s.queues.content
  let s := { s with queues := { s.queues with content := q' } }
  match item with
  | none => s
  | some d =>
    if f.db_fails then s.log "content processing failed"
    else { s with db := process_content_analysis now d s.db }

/-- One iteration of `_session_worker` (lines 226–235): a single `brpop`. -/
def session_worker_iteration (f : Faults) (now : Time) (s : SysState) : SysState :=
  let (item, q') := brpop s.queues.session
  let s := { s with queues := { s.queues with session := q' } }
  match item with
  | none => s
  | some d =>
    if f.db_fails then s.log "session processing failed"
    else { s with db := process_session_metrics now d s.db }

/-- One iteration of `_classification_worker` (lines 241–250). -/
def classification_worker_iteration (engine : String → EngineOutcome)
    (f : Faults) (now : Time) (s : SysState) : SysState :=
  let (item, q') := brpop s.queues.classification
  let s := { s with queues := { s.queues with classification := q' } }
  match item with
  | none => s
  | some d => { s with db := process_conversation_classification engine f.db_fails now d s.db }

/-! ## Cleanup worker (`_cleanup_old_data`, lines 571–592) -/

/-- TTL of the Session Activity Cache: `timedelta(hours=24)` in seconds. -/
def CACHE_TTL_SECONDS : Int := 24 * 3600

/-- Interval of `_cleanup_worker` (`asyncio.sleep(3600)`). -/
def CLEANUP_INTERVAL_SECONDS : Nat := 3600

/-- `_cleanup_old_data`: evict every cache entry whose `last_activity` is
strictly older than `now - 24h`. The database handle is opened and closed
without any statement; queues are untouched. -/
def cleanup_old_data (now : Time) (s : SysState) : SysState :=
  { s with collector := { s.collector with
      active_sessions := s.collector.active_sessions.filter
        (fun e => ¬ (e.2.last_activity < now - CACHE_TTL_SECONDS)) } }

/-! ## Idle-Session Scanner (`_check_inactive_sessions`, lines 594–656) -/

/-- Idle threshold: `timedelta(minutes=15)` in seconds. -/
def IDLE_THRESHOLD_SECONDS : Int := 15 * 60

/-- Interval of `_auto_analysis_worker` (`asyncio.sleep(300)`). -/
def IDLE_SCAN_INTERVAL_SECONDS : Nat := 300

/-- Candidate limit of the scanner query (`LIMIT 10`). -/
def MAX_IDLE_CANDIDATES : Nat := 10

/-- Minimum stored messages for auto-classification (`len(messages) >= 3`). -/
def MIN_MESSAGES_FOR_CLASSIFICATION : Nat := 3

/-- Whether the store holds an `auto_generated = true` feedback row for a
session id (the `NOT IN` subquery of lines 610–614). -/
def hasAutoFeedback (db : DB) (session_id : String) : Bool :=
  db.user_feedback.any (fun fb => fb.session_id = session_id ∧ fb.auto_generated)

/-- The scanner's candidate query (lines 606–617): sessions idle for more
than 15 minutes with no `auto_generated` feedback row, ordered by
`last_activity` descending, limited to 10. -/
def inactive_candidates (now : Time) (db : DB) : List ChatSessionRow :=
  (((db.chat_sessions.filter (fun cs =>
      cs.last_activity < now - IDLE_THRESHOLD_SECONDS ∧
      ¬ hasAutoFeedback db cs.session_id)).insertionSort
    (fun a b => b.last_activity ≤ a.last_activity)).take MAX_IDLE_CANDIDATES)

/-- A stored chat message as it appears inside the scanner's
`conversation_data` (a `ChatMessage` ORM object has no `sender` key). -/
def classMsgOfRow (m : ChatMessageRow) : ClassMsg :=
  ⟨none, some m.content⟩

/-- The `conversation_data` dict built by the scanner (lines 630–639). -/
def scannerConversationData (cs : ChatSessionRow) (history : List ChatMessageRow) :
    ConversationData where
  session_id := some cs.session_id
  messages := history.map classMsgOfRow
  total_messages := some history.length
  trigger_reason := some "inactivity_timeout"
  user_id := some "auto_timeout"
  agent_id := none
  team_id := cs.team_id

/-- Body of the scanner's per-candidate loop (lines 621–648): fetch the
candidate's history; when it has at least 3 messages, issue one
classification request through the Ingestion API and record it; otherwise
do nothing for that session. -/
def scan_step (engine : String → EngineOutcome) (f : Faults) (now : Time)
    (acc : SysState × List ClassificationData) (cs : ChatSessionRow) :
    SysState × List ClassificationData :=
  let (st, reqs) := acc
  let history := get_chat_history st.db cs.session_id
  if history ≠ [] ∧ 3 ≤ history.length then
    let conv := scannerConversationData cs history
    match request_conversation_classification engine f now cs.session_id conv st with
    | .ok st' => (st', reqs ++ [⟨cs.session_id, conv⟩])
    | .error _ => (st.log "scanner error", reqs)
  else acc

/-- One pass of `_check_inactive_sessions`: the per-candidate loop over the
initial query snapshot. Returns the final state and the issued requests in
order. -/
def check_inactive_sessions (engine : String → EngineOutcome) (f : Faults)
    (now : Time) (s : SysState) : SysState × List ClassificationData :=
  (inactive_candidates now s.db).foldl (scan_step engine f now) (s, [])

/-- The classification requests issued for a candidate list, as a pure
function of the store. -/
def scanner_requests_of (db : DB) (cands : List ChatSessionRow) :
    List ClassificationData :=
  cands.filterMap (fun cs =>
    let history := get_chat_history db cs.session_id
    if history ≠ [] ∧ 3 ≤ history.length then
      some ⟨cs.session_id, scannerConversationData cs history⟩
    else none)

/-- The classification requests one scanner pass issues, as a pure function
of the store (matches `check_inactive_sessions` whenever the broker is
connected, since then no request mutates the store mid-pass). -/
def scanner_requests (now : Time) (db : DB) : List ClassificationData :=
  scanner_requests_of db (inactive_candidates now db)

/-! ## Theorems -/

/-- C1: for every input, state and internal-failure assignment (broker,
serialization, persistence, classification engine), each of the four
ingestion operations returns normally (`.ok`): the catch-all handlers of
`collect_execution_metrics`, `collect_content_metrics`,
`collect_session_metrics` and `request_conversation_classification` swallow
every internal failure. -/
theorem c1_ingestion_never_raises (engine : String → EngineOutcome)
    (f : Faults) (now : Time) (e : ExecEvent) (c : ContentEvent)
    (d : SessionEvent) (sid : String) (conv : ConversationData) (s : SysState) :
    (collect_execution_metrics f now e s).isOk = true ∧
    (collect_content_metrics f now c s).isOk = true ∧
    (collect_session_metrics f now d s).isOk = true ∧
    (request_conversation_classification engine f now sid conv s).isOk = true := by
  refine ⟨?_, ?_, ?_, ?_⟩
  · unfold collect_execution_metrics
    cases collect_execution_metrics_body f now e s <;> rfl
  · unfold collect_content_metrics
    cases collect_content_metrics_body f now c s <;> rfl
  · unfold collect_session_metrics
    cases collect_session_metrics_body f now d s <;> rfl
  · unfold request_conversation_classification
    by_cases h : s.collector.redis_client_set = true
    · rw [if_neg (not_not_intro h)]
      cases enqueueResult f <;> rfl
    · rw [if_pos h]; rfl

/-- C9: one run of `_cleanup_old_data` evicts exactly the Session Activity
Cache entries whose last activity is older than the 24-hour TTL, keeps every
younger entry unchanged, and writes neither to the relational store nor to
the broker queues. -/
theorem c9_cleanup_evicts_exactly_stale (now : Time) (s : SysState) :
    (cleanup_old_data now s).db = s.db ∧
    (cleanup_old_data now s).queues = s.queues ∧
    (cleanup_old_data now s).logs = s.logs ∧
    ∀ e : String × SessionRecord,
      e ∈ (cleanup_old_data now s).collector.active_sessions ↔
        e ∈ s.collector.active_sessions ∧
          ¬ e.2.last_activity < now - CACHE_TTL_SECONDS := by
  refine ⟨rfl, rfl, rfl, fun e => ?_⟩
  simp [cleanup_old_data, List.mem_filter]

/-- C4 (code bug): the `user_feedback` row written by
`_process_conversation_classification` for a successfully parsed
classification is appended with `auto_generated = false` — the INSERT of
lines 519–527 omits the column, so the column default `False` applies,
contradicting both the spec and the scanner's own
`auto_generated = true` idempotency guard. -/
theorem c4_classification_row_not_flagged (cl : Classification) (now : Time)
    (data : ClassificationData) (db : DB) :
    (process_conversation_classification (fun _ => .parsed cl) false now data db).user_feedback
      = db.user_feedback ++ [feedbackRowOfClassification now data cl] ∧
    (feedbackRowOfClassification now data cl).auto_generated = false := by
  constructor
  · unfold process_conversation_classification
    by_cases h : cl.topics = [] <;> simp [h]
  · rfl

/-- Upsert helper: with no conflicting row, the upsert is a plain insert of
`(1, response_time, tokens)`. -/
theorem upsertPerformance_of_not_mem {rows : List PerformanceRow}
    {agent : Option Nat} {date : Time} (rt t : Nat)
    (h : ∀ r ∈ rows, ¬(r.agent_id = agent ∧ r.metric_date = date)) :
    upsertPerformance rows agent date rt t = rows ++ [⟨agent, date, 1, (rt : Rat), t⟩] := by
  have hc : rows.any (fun r => r.agent_id = agent ∧ r.metric_date = date) = false := by
    rw [List.any_eq_false]
    intro r hr
    simpa using h r hr
  unfold upsertPerformance
  rw [hc]
  simp

/-- Upsert helper: a conflicting trailing row is updated in place with
`total + 1`, `(avg + rt) / 2`, `tokens + t`. -/
theorem upsertPerformance_update_last {rows : List PerformanceRow}
    {agent : Option Nat} {date : Time} (n : Nat) (avg : Rat) (tk rt t : Nat)
    (h : ∀ r ∈ rows, ¬(r.agent_id = agent ∧ r.metric_date = date)) :
    upsertPerformance (rows ++ [⟨agent, date, n, avg, tk⟩]) agent date rt t =
      rows ++ [⟨agent, date, n + 1, (avg + (rt : Rat)) / 2, tk + t⟩] := by
  have hany : (rows ++ [(⟨agent, date, n, avg, tk⟩ : PerformanceRow)]).any
      (fun r => r.agent_id = agent ∧ r.metric_date = date) = true := by
    simp [List.any_append]
  unfold upsertPerformance
  rw [hany, if_pos rfl, List.map_append]
  have hrows : rows.map (fun r =>
      if r.agent_id = agent ∧ r.metric_date = date then
        { r with
          total_interactions := r.total_interactions + 1
          avg_response_time_ms := (r.avg_response_time_ms + (rt : Rat)) / 2
          tokens_consumed := r.tokens_consumed + t }
      else r) = rows := by
    conv_rhs => rw [← List.map_id rows]
    exact List.map_congr_left (fun r hr => by simp [h r hr])
  rw [hrows]
  simp

/-- The `performance_metrics` table after one dequeued item: exactly the
upsert (the two inserts of the item touch other tables). -/
theorem performance_of_processExecutionItem (now today : Time) (db : DB)
    (item : ExecEvent) :
    (processExecutionItem now today db item).performance_metrics =
      upsertPerformance db.performance_metrics item.agent_id today
        (item.execution_time_ms.getD 0)
        (item.input_tokens.getD 0 + item.output_tokens.getD 0) := by
  simp only [processExecutionItem]
  split <;> split <;> rfl

/-- C3 counterexample: two execution events for agent 1 on the same date
with response times 100 ms then 300 ms, starting from an empty store, leave
`avg_response_time_ms = 200` (and `100` after the first event), not the
claimed `175` (and `50`): the initial INSERT stores the raw response time,
not `(0 + new) / 2`. -/
theorem c3_counterexample :
    (process_execution_batch 0 0
        [{ agent_id := some 1, execution_time_ms := some 100 },
         { agent_id := some 1, execution_time_ms := some 300 }]
        {}).performance_metrics = [⟨some 1, 0, 2, 200, 0⟩] ∧
    ¬ (process_execution_batch 0 0
        [{ agent_id := some 1, execution_time_ms := some 100 },
         { agent_id := some 1, execution_time_ms := some 300 }]
        {}).performance_metrics = [⟨some 1, 0, 2, 175, 0⟩] ∧
    (process_execution_batch 0 0
        [{ agent_id := some 1, execution_time_ms := some 100 }]
        {}).performance_metrics = [⟨some 1, 0, 1, 100, 0⟩] ∧
    ¬ (process_execution_batch 0 0
        [{ agent_id := some 1, execution_time_ms := some 100 }]
        {}).performance_metrics = [⟨some 1, 0, 1, 50, 0⟩] := by
  have key2 : (process_execution_batch 0 0
      [{ agent_id := some 1, execution_time_ms := some 100 },
       { agent_id := some 1, execution_time_ms := some 300 }]
      {}).performance_metrics =
      [⟨some 1, 0, 1 + 1, (((100 : Nat) : Rat) + ((300 : Nat) : Rat)) / 2, 0 + 0⟩] := by
    rfl
  have key1 : (process_execution_batch 0 0
      [{ agent_id := some 1, execution_time_ms := some 100 }]
      {}).performance_metrics = [⟨some 1, 0, 1, ((100 : Nat) : Rat), 0⟩] := by
    rfl
  rw [key1, key2]
  refine ⟨by norm_num, by norm_num [PerformanceRow.mk.injEq], by norm_num,
    by norm_num [PerformanceRow.mk.injEq]⟩

/-- C3 amended: two execution events for the same (agent, date) with
response times `rt1` then `rt2` and no pre-existing row yield
`total_interactions = 2` and `avg_response_time_ms = (rt1 + rt2) / 2`
(100 ms then 300 ms give 100 after the first event and 200 after the
second): the first event's INSERT stores its response time as-is, and only
conflicting events apply `(previous_avg + new) / 2`. -/
theorem c3_amended (now date : Time) (a rt1 rt2 : Nat) (e1 e2 : ExecEvent)
    (db : DB)
    (h1a : e1.agent_id = some a) (h2a : e2.agent_id = some a)
    (h1r : e1.execution_time_ms = some rt1) (h2r : e2.execution_time_ms = some rt2)
    (hno : ∀ r ∈ db.performance_metrics, ¬(r.agent_id = some a ∧ r.metric_date = date)) :
    (process_execution_batch now date [e1, e2] db).performance_metrics =
      db.performance_metrics ++
        [⟨some a, date, 2, ((rt1 : Rat) + (rt2 : Rat)) / 2,
          (e1.input_tokens.getD 0 + e1.output_tokens.getD 0) +
            (e2.input_tokens.getD 0 + e2.output_tokens.getD 0)⟩] := by
  show (processExecutionItem now date (processExecutionItem now date db e1) e2).performance_metrics = _
  rw [performance_of_processExecutionItem, performance_of_processExecutionItem]
  rw [h1a, h2a, h1r, h2r]
  simp only [Option.getD_some]
  rw [upsertPerformance_of_not_mem _ _ hno]
  rw [upsertPerformance_update_last _ _ _ _ _ hno]

/-- C3 amended, witnessed at the claim's own numbers. -/
theorem c3_amended_witness :
    (∀ r ∈ (({} : DB)).performance_metrics, ¬(r.agent_id = some 1 ∧ r.metric_date = 0)) ∧
    (process_execution_batch 0 0
        [{ agent_id := some 1, execution_time_ms := some 100 },
         { agent_id := some 1, execution_time_ms := some 300 }]
        {}).performance_metrics
      = [⟨some 1, 0, 2, (((100 : Nat) : Rat) + ((300 : Nat) : Rat)) / 2, 0⟩] := by
  refine ⟨by simp, ?_⟩
  exact c3_amended 0 0 1 100 300
    { agent_id := some 1, execution_time_ms := some 100 }
    { agent_id := some 1, execution_time_ms := some 300 } {} rfl rfl rfl rfl (by simp)

/-- `input_tokens` after queue-path derivation: estimated exactly when the
incoming count is falsy and the text truthy (the later cost step never
touches it). -/
theorem deriveExecQueuePath_input_tokens (d : ExecEvent) :
    (deriveExecQueuePath d).input_tokens =
      if ¬ truthyNat d.input_tokens ∧ truthyStr d.input_text
      then some (estimate_tokens (d.input_text.getD "")) else d.input_tokens := by
  unfold deriveExecQueuePath
  dsimp only
  repeat' split
  all_goals rfl

/-- `output_tokens` after queue-path derivation, analogously. -/
theorem deriveExecQueuePath_output_tokens (d : ExecEvent) :
    (deriveExecQueuePath d).output_tokens =
      if ¬ truthyNat d.output_tokens ∧ truthyStr d.output_text
      then some (estimate_tokens (d.output_text.getD "")) else d.output_tokens := by
  unfold deriveExecQueuePath
  dsimp only
  repeat' split
  all_goals rfl

/-- The `token_usage` insert of the batch path fires exactly under the
truthiness guard of line 290. -/
theorem token_usage_of_processExecutionItem (now today : Time) (db : DB)
    (item : ExecEvent)
    (h : truthyNat item.input_tokens ∨ truthyNat item.output_tokens) :
    (processExecutionItem now today db item).token_usage =
      db.token_usage ++ [tokenUsageRowOfItem now item] := by
  simp only [processExecutionItem]
  rw [if_pos h]
  split <;> rfl

/-- C6 counterexample: an execution event arriving with `input_tokens = 0`
and an 8-character input text does not keep its token count: Python
truthiness treats `0` as missing and the derivation overwrites it with the
estimate `8 // 4 = 2`. -/
theorem c6_counterexample :
    (deriveExecQueuePath
        { input_tokens := some 0, input_text := some "abcdefgh" }).input_tokens = some 2 ∧
    ¬ (deriveExecQueuePath
        { input_tokens := some 0, input_text := some "abcdefgh" }).input_tokens = some 0 := by
  constructor <;> decide

/-- C6 amended: an execution event with an absent token count and a
non-empty text gets `floor(len(text) / 4)` for that side, and that value is
what the batch path persists in `token_usage`; an event arriving with a
*non-zero* token count keeps it unchanged — but a token count of `0` is
falsy in Python and is re-estimated like a missing one. -/
theorem c6_amended (d : ExecEvent) (t1 t2 : String) :
    (d.input_tokens = none → d.input_text = some t1 → t1 ≠ "" →
      (deriveExecQueuePath d).input_tokens = some (t1.length / 4)) ∧
    (d.output_tokens = none → d.output_text = some t2 → t2 ≠ "" →
      (deriveExecQueuePath d).output_tokens = some (t2.length / 4)) ∧
    (∀ n, d.input_tokens = some n → n ≠ 0 →
      (deriveExecQueuePath d).input_tokens = some n) ∧
    (∀ n, d.output_tokens = some n → n ≠ 0 →
      (deriveExecQueuePath d).output_tokens = some n) ∧
    (d.input_tokens = some 0 → d.input_text = some t1 → t1 ≠ "" →
      (deriveExecQueuePath d).input_tokens = some (t1.length / 4)) ∧
    (d.input_tokens = none → d.input_text = some t1 → t1 ≠ "" → 4 ≤ t1.length →
      ∀ now today : Time, ∀ db : DB,
        (process_execution_batch now today [deriveExecQueuePath d] db).token_usage =
          db.token_usage ++ [tokenUsageRowOfItem now (deriveExecQueuePath d)] ∧
        (tokenUsageRowOfItem now (deriveExecQueuePath d)).input_tokens = t1.length / 4) := by
  have hin : d.input_tokens = none → d.input_text = some t1 → t1 ≠ "" →
      (deriveExecQueuePath d).input_tokens = some (t1.length / 4) := by
    intro h1 h2 h3
    rw [deriveExecQueuePath_input_tokens, h1, h2]
    rw [if_pos (by simp [truthyNat, truthyStr, h3])]
    simp [estimate_tokens, h3]
  refine ⟨hin, ?_, ?_, ?_, ?_, ?_⟩
  · intro h1 h2 h3
    rw [deriveExecQueuePath_output_tokens, h1, h2]
    rw [if_pos (by simp [truthyNat, truthyStr, h3])]
    simp [estimate_tokens, h3]
  · intro n h1 h2
    rw [deriveExecQueuePath_input_tokens, h1]
    rw [if_neg (by simp [truthyNat, h2])]
  · intro n h1 h2
    rw [deriveExecQueuePath_output_tokens, h1]
    rw [if_neg (by simp [truthyNat, h2])]
  · intro h1 h2 h3
    rw [deriveExecQueuePath_input_tokens, h1, h2]
    rw [if_pos (by simp [truthyNat, truthyStr, h3])]
    simp [estimate_tokens, h3]
  · intro h1 h2 h3 h4 now today db
    have hin' := hin h1 h2 h3
    have htr : truthyNat (deriveExecQueuePath d).input_tokens ∨
        truthyNat (deriveExecQueuePath d).output_tokens := by
      left
      rw [hin']
      simp only [truthyNat]
      have : t1.length / 4 ≠ 0 := Nat.ne_of_gt (Nat.div_pos h4 (by norm_num))
      simp [this]
    constructor
    · show (processExecutionItem now today db (deriveExecQueuePath d)).token_usage = _
      exact token_usage_of_processExecutionItem now today db _ htr
    · simp only [tokenUsageRowOfItem, hin', Option.getD_some]

/-- `input_tokens` after direct-path derivation: same estimation rule as the
queue path. -/
theorem deriveExecDirectPath_input_tokens (d : ExecEvent) :
    (deriveExecDirectPath d).input_tokens =
      if ¬ truthyNat d.input_tokens ∧ truthyStr d.input_text
      then some (estimate_tokens (d.input_text.getD "")) else d.input_tokens := by
  unfold deriveExecDirectPath
  dsimp only
  repeat' split
  all_goals rfl

/-- `output_tokens` after direct-path derivation, analogously. -/
theorem deriveExecDirectPath_output_tokens (d : ExecEvent) :
    (deriveExecDirectPath d).output_tokens =
      if ¬ truthyNat d.output_tokens ∧ truthyStr d.output_text
      then some (estimate_tokens (d.output_text.getD "")) else d.output_tokens := by
  unfold deriveExecDirectPath
  dsimp only
  repeat' split
  all_goals rfl

/-- C2 (code bug): after `initialize` runs with the broker unreachable —
the ping on line 43 fails but line 42 already assigned `redis_client` —
the client flag is set and `initialize` reported `False`; a subsequent
`collect_execution_metrics` call therefore takes the *enqueue* path, the
`lpush` failure is swallowed by the catch-all of lines 106–107, and the
event is dropped with only a log: zero rows are persisted and the direct
Persistence Gateway path (`_save_execution_to_db`) never runs, contrary to
the claim's "exactly one row via the direct path". -/
theorem c2_degraded_mode_never_engages :
    ((init_metrics_system true ⟨⟨false, []⟩, {}, {}, []⟩).1).collector.redis_client_set
      = true ∧
    (init_metrics_system true ⟨⟨false, []⟩, {}, {}, []⟩).2 = false ∧
    collect_execution_metrics { enqueue_fails := true } 0
        { agent_id := some 1, input_text := some "abcdefgh",
          execution_time_ms := some 100 }
        ((init_metrics_system true ⟨⟨false, []⟩, {}, {}, []⟩).1) =
      .ok (((init_metrics_system true ⟨⟨false, []⟩, {}, {}, []⟩).1).log
        "collect_execution_metrics error") ∧
    ((((init_metrics_system true ⟨⟨false, []⟩, {}, {}, []⟩).1).log
        "collect_execution_metrics error")).db = ({} : DB) := by
  refine ⟨rfl, rfl, rfl, rfl⟩

/-- C6 amended, witnessed: an 8-character text estimates to 2 tokens. -/
theorem c6_amended_witness :
    ("abcdefgh" : String) ≠ "" ∧
    (deriveExecQueuePath
        { input_tokens := none, input_text := some "abcdefgh" }).input_tokens
      = some ("abcdefgh".length / 4) := by
  refine ⟨by decide, ?_⟩
  exact (c6_amended { input_tokens := none, input_text := some "abcdefgh" }
    "abcdefgh" "x").1 rfl rfl (by decide)

/-- The execution worker's collection loop pops `min n |q|` items. -/
theorem pop_batch_length {α : Type} (n : Nat) (q : List α) :
    (pop_batch n q).1.length = min n q.length := by
  induction n generalizing q with
  | zero => simp [pop_batch]
  | succ n ih =>
    rcases q.eq_nil_or_concat with rfl | ⟨q', a, rfl⟩
    · simp [pop_batch, brpop]
    · have hlen := ih q'
      simp only [pop_batch, brpop, List.concat_eq_append, List.getLast?_concat,
        List.dropLast_concat]
      rcases hp : pop_batch n q' with ⟨xs, rest⟩
      rw [hp] at hlen
      have hx : xs.length = min n q'.length := by simpa using hlen
      dsimp only
      simp only [List.length_append, List.length_cons, List.length_nil]
      rw [inf_eq_min, Nat.succ_min_succ, ← hx]

/-- C8 counterexample: the content worker performs a single `brpop` with
`timeout=5` per iteration — on a queue holding two items it pops one, not
up to `batch_size`, and its poll wait is 5 s, not at most 1 s (the session
worker's is also 5 s). -/
theorem c8_counterexample :
    ¬ CONTENT_POLL_TIMEOUT ≤ 1 ∧
    CONTENT_POLL_TIMEOUT = 5 ∧ SESSION_POLL_TIMEOUT = 5 ∧
    (content_worker_iteration Faults.none 0
        ⟨⟨true, []⟩, { content := [{}, {}] }, {}, []⟩).queues.content.length = 1 ∧
    ¬ (content_worker_iteration Faults.none 0
        ⟨⟨true, []⟩, { content := [{}, {}] }, {}, []⟩).queues.content.length = 0 := by
  refine ⟨by decide, rfl, rfl, ?_, ?_⟩ <;> decide

/-- C8 amended: per iteration the *execution* worker pops up to 10 items
(bounded wait 1 s per poll); the *content* and *session* workers pop a
single item with a 5 s wait, and the *classification* worker a single item
with a 10 s wait; every worker loops again without processing when its
queue answers empty. -/
theorem c8_amended :
    (∀ q : List ExecEvent, (pop_batch EXECUTION_BATCH_LIMIT q).1.length = min 10 q.length) ∧
    (EXECUTION_POLL_TIMEOUT = 1 ∧ CONTENT_POLL_TIMEOUT = 5 ∧
      SESSION_POLL_TIMEOUT = 5 ∧ CLASSIFICATION_POLL_TIMEOUT = 10) ∧
    (∀ f now today s, s.queues.execution = [] →
      execution_worker_iteration f now today s = s) ∧
    (∀ f now s, s.queues.content = [] → content_worker_iteration f now s = s) ∧
    (∀ f now s, s.queues.session = [] → session_worker_iteration f now s = s) ∧
    (∀ engine f now s, s.queues.classification = [] →
      classification_worker_iteration engine f now s = s) ∧
    (∀ f now s, (content_worker_iteration f now s).queues.content.length =
      s.queues.content.length - 1) ∧
    (∀ f now s, (session_worker_iteration f now s).queues.session.length =
      s.queues.session.length - 1) ∧
    (∀ engine f now s,
      (classification_worker_iteration engine f now s).queues.classification.length =
        s.queues.classification.length - 1) := by
  have hempty : ∀ (s : SysState), { s with queues := s.queues } = s := fun _ => rfl
  refine ⟨fun q => pop_batch_length _ q, ⟨rfl, rfl, rfl, rfl⟩, ?_, ?_, ?_, ?_, ?_, ?_, ?_⟩
  · intro f now today s h
    unfold execution_worker_iteration
    rw [h]
    cases s with
    | mk coll qs db logs =>
      cases qs
      simp_all [pop_batch, brpop]
  · intro f now s h
    unfold content_worker_iteration
    rw [h]
    cases s with
    | mk coll qs db logs =>
      cases qs
      simp_all [brpop]
  · intro f now s h
    unfold session_worker_iteration
    rw [h]
    cases s with
    | mk coll qs db logs =>
      cases qs
      simp_all [brpop]
  · intro engine f now s h
    unfold classification_worker_iteration
    rw [h]
    cases s with
    | mk coll qs db logs =>
      cases qs
      simp_all [brpop]
  · intro f now s
    rcases s.queues.content.eq_nil_or_concat with hq | ⟨q', a, hq⟩ <;>
      unfold content_worker_iteration <;> rw [hq]
    · simp [brpop, hq]
    · simp only [brpop, List.concat_eq_append, List.getLast?_concat,
        List.dropLast_concat]
      split <;> simp [SysState.log, hq]
  · intro f now s
    rcases s.queues.session.eq_nil_or_concat with hq | ⟨q', a, hq⟩ <;>
      unfold session_worker_iteration <;> rw [hq]
    · simp [brpop, hq]
    · simp only [brpop, List.concat_eq_append, List.getLast?_concat,
        List.dropLast_concat]
      split <;> simp [SysState.log, hq]
  · intro engine f now s
    rcases s.queues.classification.eq_nil_or_concat with hq | ⟨q', a, hq⟩ <;>
      unfold classification_worker_iteration <;> rw [hq]
    · simp [brpop, hq]
    · simp only [brpop, List.concat_eq_append, List.getLast?_concat,
        List.dropLast_concat]
      simp [hq]

/-- C10: the transcript sent to the Classification Engine holds exactly
`min 10 |messages|` lines — the last 10 messages, in order (any earlier
messages never change the transcript) — and every line carries the
corresponding message's content truncated to its first 200 characters. -/
theorem c10_transcript_last10_truncated (ms : List ClassMsg) :
    (conversationLines ms).length = min 10 ms.length ∧
    (∀ pre : List ClassMsg, 10 ≤ ms.length →
      conversation_text (pre ++ ms) = conversation_text ms) ∧
    (∀ line ∈ conversationLines ms, ∃ m ∈ ms,
      line = m.sender.getD "user" ++ ": " ++ (m.content.getD "").take 200 ∧
      ((m.content.getD "").take 200).length ≤ 200 ∧
      (m.content.getD "").take 200 ++ (m.content.getD "").drop 200 = m.content.getD "") := by
  refine ⟨?_, ?_, ?_⟩
  · unfold conversationLines
    rw [List.length_map, List.length_drop]
    omega
  · intro pre h
    unfold conversation_text conversationLines
    congr 2
    rw [List.length_append]
    rw [show pre.length + ms.length - 10 = pre.length + (ms.length - 10) from by omega]
    rw [List.drop_append]
  · intro line hline
    obtain ⟨m, hm, rfl⟩ := List.mem_map.1 hline
    refine ⟨m, List.mem_of_mem_drop hm, rfl, ?_, ?_⟩
    · have h1 : ((m.content.getD "").take 200).length =
          ((m.content.getD "").data.take 200).length := by
        rw [← String.data_take, String.length_data]
      rw [h1]
      exact List.length_take_le 200 _
    · apply String.ext
      simp [String.data_append, String.data_take, String.data_drop]

/-- C10 witness: prepending an eleventh, older message leaves the
transcript unchanged. -/
theorem c10_transcript_witness :
    10 ≤ (List.replicate 10 (⟨none, none⟩ : ClassMsg)).length ∧
    conversation_text ([(⟨some "early", some "dropped"⟩ : ClassMsg)] ++
        List.replicate 10 ⟨none, none⟩) =
      conversation_text (List.replicate 10 ⟨none, none⟩) := by
  refine ⟨by simp, ?_⟩
  exact (c10_transcript_last10_truncated (List.replicate 10 ⟨none, none⟩)).2.1
    [⟨some "early", some "dropped"⟩] (by simp)

/-- With a connected broker and no enqueue/serialization fault, a
classification request only pushes onto the classification queue. -/
theorem request_classification_connected (engine : String → EngineOutcome)
    (f : Faults) (now : Time) (sid : String) (conv : ConversationData)
    (s : SysState) (hconn : s.collector.redis_client_set = true)
    (hs : f.serialize_fails = false) (he : f.enqueue_fails = false) :
    request_conversation_classification engine f now sid conv s =
      .ok { s with queues := { s.queues with
        classification := ⟨sid, conv⟩ :: s.queues.classification } } := by
  unfold request_conversation_classification enqueueResult
  rw [if_neg (not_not_intro hconn), hs, he]
  rfl

/-- Any request issued by the scanner loop belongs to the accumulator or
carries the session id of one of the candidates. -/
theorem scan_fold_sessions (engine : String → EngineOutcome) (f : Faults)
    (now : Time) :
    ∀ (cands : List ChatSessionRow) (st : SysState)
      (reqs : List ClassificationData) (r : ClassificationData),
      r ∈ (cands.foldl (scan_step engine f now) (st, reqs)).2 →
      r ∈ reqs ∨ ∃ cs ∈ cands, r.session_id = cs.session_id := by
  intro cands
  induction cands with
  | nil => intro st reqs r h; exact .inl h
  | cons a l ih =>
    intro st reqs r h
    rw [List.foldl_cons] at h
    rcases hp : scan_step engine f now (st, reqs) a with ⟨st', reqs'⟩
    rw [hp] at h
    have h2 : reqs' = reqs ∨ reqs' = reqs ++ [⟨a.session_id,
        scannerConversationData a (get_chat_history st.db a.session_id)⟩] := by
      have hsnd := congrArg Prod.snd hp
      dsimp only at hsnd
      rw [← hsnd]
      unfold scan_step
      dsimp only
      split
      · split
        · right; rfl
        · left; rfl
      · left; rfl
    rcases ih st' reqs' r h with hin | ⟨cs, hcs, hsid⟩
    · rcases h2 with h2 | h2
      · exact .inl (h2 ▸ hin)
      · subst h2
        rcases List.mem_append.1 hin with hin' | hin'
        · exact .inl hin'
        · refine .inr ⟨a, List.mem_cons_self a l, ?_⟩
          simp only [List.mem_singleton] at hin'
          rw [hin']
    · exact .inr ⟨cs, List.mem_cons_of_mem a hcs, hsid⟩

/-- Scanner loop characterization under a connected broker with no
enqueue/serialization fault: the store and collector are untouched and the
issued requests are the pure `scanner_requests_of` of the initial store. -/
theorem scan_fold_connected (engine : String → EngineOutcome) (f : Faults)
    (now : Time) (hs : f.serialize_fails = false) (he : f.enqueue_fails = false) :
    ∀ (cands : List ChatSessionRow) (s : SysState)
      (reqs : List ClassificationData),
      s.collector.redis_client_set = true →
      (cands.foldl (scan_step engine f now) (s, reqs)).2 =
        reqs ++ scanner_requests_of s.db cands ∧
      (cands.foldl (scan_step engine f now) (s, reqs)).1.db = s.db ∧
      (cands.foldl (scan_step engine f now) (s, reqs)).1.collector = s.collector := by
  intro cands
  induction cands with
  | nil => intro s reqs hconn; simp [scanner_requests_of]
  | cons a l ih =>
    intro s reqs hconn
    rw [List.foldl_cons]
    by_cases hcond : get_chat_history s.db a.session_id ≠ [] ∧
        3 ≤ (get_chat_history s.db a.session_id).length
    · have hstep : scan_step engine f now (s, reqs) a =
          ({ s with queues := { s.queues with classification :=
              (⟨a.session_id, scannerConversationData a (get_chat_history s.db a.session_id)⟩ :
                ClassificationData) :: s.queues.classification } },
           reqs ++ [⟨a.session_id,
             scannerConversationData a (get_chat_history s.db a.session_id)⟩]) := by
        unfold scan_step
        dsimp only
        rw [if_pos hcond,
          request_classification_connected engine f now _ _ s hconn hs he]
      rw [hstep]
      obtain ⟨h1, h2, h3⟩ := ih
        { s with queues := { s.queues with classification :=
            (⟨a.session_id, scannerConversationData a (get_chat_history s.db a.session_id)⟩ :
              ClassificationData) :: s.queues.classification } }
        (reqs ++ [⟨a.session_id,
          scannerConversationData a (get_chat_history s.db a.session_id)⟩]) hconn
      refine ⟨?_, h2, h3⟩
      rw [h1]
      have hg : scanner_requests_of s.db (a :: l) =
          ⟨a.session_id, scannerConversationData a (get_chat_history s.db a.session_id)⟩ ::
            scanner_requests_of s.db l := by
        unfold scanner_requests_of
        rw [List.filterMap_cons]
        dsimp only
        rw [if_pos hcond]
      rw [hg, List.append_assoc]
      rfl
    · have hstep : scan_step engine f now (s, reqs) a = (s, reqs) := by
        unfold scan_step
        dsimp only
        rw [if_neg hcond]
      rw [hstep]
      obtain ⟨h1, h2, h3⟩ := ih s reqs hconn
      refine ⟨?_, h2, h3⟩
      rw [h1]
      have hg : scanner_requests_of s.db (a :: l) = scanner_requests_of s.db l := by
        unfold scanner_requests_of
        rw [List.filterMap_cons]
        dsimp only
        rw [if_neg hcond]
      rw [hg]

/-- Every candidate selected by the scanner query lacks an
`auto_generated = true` feedback row (the `NOT IN` guard). -/
theorem inactive_candidates_no_auto (now : Time) (db : DB) (cs : ChatSessionRow)
    (h : cs ∈ inactive_candidates now db) :
    hasAutoFeedback db cs.session_id = false := by
  unfold inactive_candidates at h
  have h1 := List.mem_of_mem_take h
  have h2 := (List.perm_insertionSort _ _).mem_iff.1 h1
  have h3 := (List.mem_filter.1 h2).2
  simp only [decide_eq_true_eq] at h3
  simpa using h3.2

/-- C5 counterexample: over an *unchanged* store holding one idle,
unclassified session with 3 messages, the scanner issues one request on the
first run and one again on the second run — not zero — because nothing in
the store records the first request. -/
theorem c5_counterexample :
    ((check_inactive_sessions (fun _ => .failure) Faults.none 10000
        ⟨⟨true, []⟩, {},
          { chat_sessions := [⟨1, "sess1", none, none, 0⟩]
            chat_messages := [⟨1, "user", "ola", 0⟩, ⟨1, "agent", "oi", 1⟩,
              ⟨1, "user", "tchau", 2⟩] }, []⟩).2.length = 1) ∧
    ((check_inactive_sessions (fun _ => .failure) Faults.none 10000
        ((check_inactive_sessions (fun _ => .failure) Faults.none 10000
          ⟨⟨true, []⟩, {},
            { chat_sessions := [⟨1, "sess1", none, none, 0⟩]
              chat_messages := [⟨1, "user", "ola", 0⟩, ⟨1, "agent", "oi", 1⟩,
                ⟨1, "user", "tchau", 2⟩] }, []⟩).1)).2.length = 1) ∧
    ¬ ((check_inactive_sessions (fun _ => .failure) Faults.none 10000
        ((check_inactive_sessions (fun _ => .failure) Faults.none 10000
          ⟨⟨true, []⟩, {},
            { chat_sessions := [⟨1, "sess1", none, none, 0⟩]
              chat_messages := [⟨1, "user", "ola", 0⟩, ⟨1, "agent", "oi", 1⟩,
                ⟨1, "user", "tchau", 2⟩] }, []⟩).1)).2.length = 0) := by
  refine ⟨?_, ?_, ?_⟩ <;> decide

/-- C5 amended: a session id with an existing `auto_generated = true`
feedback row is never selected (the guard is checked against the store, not
the cache); but a scanner pass over a connected broker leaves the store
unchanged, so a second run over the unchanged store re-issues exactly the
first run's requests — zero only when the first run issued zero. -/
theorem c5_amended (engine : String → EngineOutcome) (f : Faults) (now : Time)
    (s : SysState) (hconn : s.collector.redis_client_set = true)
    (hs : f.serialize_fails = false) (he : f.enqueue_fails = false) :
    (∀ sid : String, hasAutoFeedback s.db sid = true →
      ∀ r ∈ (check_inactive_sessions engine f now s).2, ¬ r.session_id = sid) ∧
    (check_inactive_sessions engine f now s).1.db = s.db ∧
    (check_inactive_sessions engine f now
        ((check_inactive_sessions engine f now s).1)).2 =
      (check_inactive_sessions engine f now s).2 := by
  obtain ⟨h1, h2, h3⟩ := scan_fold_connected engine f now hs he
    (inactive_candidates now s.db) s [] hconn
  refine ⟨?_, h2, ?_⟩
  · intro sid hsid r hr hcontr
    rcases scan_fold_sessions engine f now (inactive_candidates now s.db) s [] r hr with
      hin | ⟨cs, hcs, hrs⟩
    · exact absurd hin (List.not_mem_nil r)
    · have hno := inactive_candidates_no_auto now s.db cs hcs
      rw [← hrs, hcontr, hsid] at hno
      cases hno
  · have hconn1 : ((check_inactive_sessions engine f now s).1).collector.redis_client_set
        = true := by
      have hc : ((check_inactive_sessions engine f now s).1).collector = s.collector := h3
      rw [hc]
      exact hconn
    obtain ⟨h1', h2', h3'⟩ := scan_fold_connected engine f now hs he
      (inactive_candidates now ((check_inactive_sessions engine f now s).1).db)
      ((check_inactive_sessions engine f now s).1) [] hconn1
    have hdb1 : ((check_inactive_sessions engine f now s).1).db = s.db := h2
    calc (check_inactive_sessions engine f now
            ((check_inactive_sessions engine f now s).1)).2
        = [] ++ scanner_requests_of ((check_inactive_sessions engine f now s).1).db
            (inactive_candidates now ((check_inactive_sessions engine f now s).1).db) := h1'
      _ = [] ++ scanner_requests_of s.db (inactive_candidates now s.db) := by rw [hdb1]
      _ = (check_inactive_sessions engine f now s).2 := h1.symm

/-- C5 amended, witnessed: a store whose only session already carries an
`auto_generated` feedback row, with the broker connected. -/
theorem c5_amended_witness :
    hasAutoFeedback
      { chat_sessions := [⟨1, "s1", none, none, 0⟩]
        user_feedback := [⟨"s1", "u", none, none, 3, none, none, none, true, 0⟩] }
      "s1" = true ∧
    (check_inactive_sessions (fun _ => .failure) Faults.none 10000
        ⟨⟨true, []⟩, {},
          { chat_sessions := [⟨1, "s1", none, none, 0⟩]
            user_feedback := [⟨"s1", "u", none, none, 3, none, none, none, true, 0⟩] },
          []⟩).1.db =
      { chat_sessions := [⟨1, "s1", none, none, 0⟩]
        user_feedback := [⟨"s1", "u", none, none, 3, none, none, none, true, 0⟩] } := by
  refine ⟨by decide, ?_⟩
  exact (c5_amended (fun _ => .failure) Faults.none 10000
    ⟨⟨true, []⟩, {},
      { chat_sessions := [⟨1, "s1", none, none, 0⟩]
        user_feedback := [⟨"s1", "u", none, none, 3, none, none, none, true, 0⟩] },
      []⟩ rfl rfl rfl).2.1

/-- C8 amended, witnessed: an empty execution queue loops without
processing. -/
theorem c8_amended_witness :
    (⟨⟨true, []⟩, {}, {}, []⟩ : SysState).queues.execution = [] ∧
    execution_worker_iteration Faults.none 0 0 ⟨⟨true, []⟩, {}, {}, []⟩ =
      ⟨⟨true, []⟩, {}, {}, []⟩ :=
  ⟨rfl, c8_amended.2.2.1 Faults.none 0 0 ⟨⟨true, []⟩, {}, {}, []⟩ rfl⟩

/-- Each issued scanner request carries a candidate's session id and the
`inactivity_timeout` trigger reason. -/
theorem mem_scanner_requests_of {db : DB} {cands : List ChatSessionRow}
    {r : ClassificationData} (h : r ∈ scanner_requests_of db cands) :
    ∃ cs ∈ cands, r.session_id = cs.session_id ∧
      r.conversation_data.trigger_reason = some "inactivity_timeout" := by
  unfold scanner_requests_of at h
  obtain ⟨cs, hcs, hf⟩ := List.mem_filterMap.1 h
  dsimp only at hf
  split at hf
  · obtain rfl := Option.some.inj hf
    exact ⟨cs, hcs, rfl, rfl⟩
  · cases hf

/-- Requests per candidate: with pairwise-distinct candidate session ids,
a candidate with enough history contributes exactly one request and a
candidate with too little history contributes none. -/
theorem countP_scanner_requests_of (db : DB) (cands : List ChatSessionRow)
    (hnd : (cands.map (fun c => c.session_id)).Nodup) (cs0 : ChatSessionRow)
    (h0 : cs0 ∈ cands) :
    (scanner_requests_of db cands).countP (fun r => r.session_id = cs0.session_id) =
      if get_chat_history db cs0.session_id ≠ [] ∧
          3 ≤ (get_chat_history db cs0.session_id).length then 1 else 0 := by
  induction cands with
  | nil => cases h0
  | cons a l ih =>
    have hnotin : a.session_id ∉ l.map (fun c => c.session_id) :=
      (List.nodup_cons.1 hnd).1
    have hnd_tail : (l.map (fun c => c.session_id)).Nodup :=
      (List.nodup_cons.1 hnd).2
    unfold scanner_requests_of
    rw [List.filterMap_cons]
    rcases List.mem_cons.1 h0 with rfl | h0'
    · have hz : (scanner_requests_of db l).countP
          (fun r => r.session_id = cs0.session_id) = 0 := by
        rw [List.countP_eq_zero]
        intro r hr
        obtain ⟨cs, hcs, hsid, _⟩ := mem_scanner_requests_of hr
        simp only [decide_eq_true_eq]
        rw [hsid]
        intro hc
        exact hnotin (hc ▸ List.mem_map_of_mem (fun c => c.session_id) hcs)
      by_cases hcond : get_chat_history db cs0.session_id ≠ [] ∧
          3 ≤ (get_chat_history db cs0.session_id).length
      · dsimp only
        rw [if_pos hcond, List.countP_cons]
        have : (scanner_requests_of db l) = List.filterMap _ l := rfl
        rw [show List.filterMap (fun cs =>
            let history := get_chat_history db cs.session_id
            if history ≠ [] ∧ 3 ≤ history.length then
              some (⟨cs.session_id, scannerConversationData cs history⟩ : ClassificationData)
            else none) l = scanner_requests_of db l from rfl]
        rw [hz, if_pos hcond]
        simp
      · dsimp only
        rw [if_neg hcond]
        rw [show List.filterMap (fun cs =>
            let history := get_chat_history db cs.session_id
            if history ≠ [] ∧ 3 ≤ history.length then
              some (⟨cs.session_id, scannerConversationData cs history⟩ : ClassificationData)
            else none) l = scanner_requests_of db l from rfl]
        rw [hz, if_neg hcond]
    · have hne : cs0.session_id ≠ a.session_id := by
        intro hc
        exact hnotin (hc ▸ List.mem_map_of_mem (fun c => c.session_id) h0')
      have htail := ih hnd_tail h0'
      rw [show List.filterMap (fun cs =>
          let history := get_chat_history db cs.session_id
          if history ≠ [] ∧ 3 ≤ history.length then
            some (⟨cs.session_id, scannerConversationData cs history⟩ : ClassificationData)
          else none) l = scanner_requests_of db l from rfl]
      dsimp only
      split
      · exact htail
      · rename_i b heq
        split at heq
        · obtain rfl := Option.some.inj heq
          rw [List.countP_cons, htail]
          have hb : ¬ ((⟨a.session_id, scannerConversationData a
              (get_chat_history db a.session_id)⟩ : ClassificationData).session_id
                = cs0.session_id) := fun hc => hne hc.symm
          simp [hb]
        · cases heq

/-- The candidate list inherits distinct session ids from the store
(`chat_sessions.session_id` is unique). -/
theorem inactive_candidates_nodup (now : Time) (db : DB)
    (hnd : (db.chat_sessions.map (fun c => c.session_id)).Nodup) :
    ((inactive_candidates now db).map (fun c => c.session_id)).Nodup := by
  unfold inactive_candidates
  have h1 : ((db.chat_sessions.filter (fun cs =>
      cs.last_activity < now - IDLE_THRESHOLD_SECONDS ∧
        ¬ hasAutoFeedback db cs.session_id)).map (fun c => c.session_id)).Nodup :=
    ((List.filter_sublist db.chat_sessions).map (fun c => c.session_id)).nodup hnd
  have h2 : (((db.chat_sessions.filter (fun cs =>
      cs.last_activity < now - IDLE_THRESHOLD_SECONDS ∧
        ¬ hasAutoFeedback db cs.session_id)).insertionSort
        (fun a b => b.last_activity ≤ a.last_activity)).map
          (fun c => c.session_id)).Nodup :=
    (((List.perm_insertionSort (fun a b : ChatSessionRow =>
        b.last_activity ≤ a.last_activity) _).map
      (fun c : ChatSessionRow => c.session_id)).nodup_iff).2 h1
  exact ((List.take_sublist MAX_IDLE_CANDIDATES _).map
    (fun c : ChatSessionRow => c.session_id)).nodup h2

/-- C7: one scanner pass considers at most 10 candidates; with a connected
broker, every candidate whose fetched history has at least 3 messages gets
exactly one classification request tagged `inactivity_timeout`, and a
candidate with fewer than 3 messages gets none and the store is untouched. -/
theorem c7_scanner_min_messages (engine : String → EngineOutcome) (f : Faults)
    (now : Time) (s : SysState) (hconn : s.collector.redis_client_set = true)
    (hs : f.serialize_fails = false) (he : f.enqueue_fails = false)
    (hnd : (s.db.chat_sessions.map (fun c => c.session_id)).Nodup) :
    (inactive_candidates now s.db).length ≤ 10 ∧
    (∀ cs ∈ inactive_candidates now s.db,
      (3 ≤ (get_chat_history s.db cs.session_id).length →
        (check_inactive_sessions engine f now s).2.countP
          (fun r => r.session_id = cs.session_id) = 1) ∧
      ((get_chat_history s.db cs.session_id).length < 3 →
        (check_inactive_sessions engine f now s).2.countP
          (fun r => r.session_id = cs.session_id) = 0)) ∧
    (∀ r ∈ (check_inactive_sessions engine f now s).2,
      r.conversation_data.trigger_reason = some "inactivity_timeout") ∧
    (check_inactive_sessions engine f now s).1.db = s.db := by
  obtain ⟨h1, h2, _⟩ := scan_fold_connected engine f now hs he
    (inactive_candidates now s.db) s [] hconn
  have hreqs : (check_inactive_sessions engine f now s).2 =
      scanner_requests_of s.db (inactive_candidates now s.db) := by
    rw [show (check_inactive_sessions engine f now s).2 =
      ((inactive_candidates now s.db).foldl (scan_step engine f now) (s, [])).2 from rfl]
    rw [h1, List.nil_append]
  refine ⟨?_, ?_, ?_, h2⟩
  · unfold inactive_candidates
    simpa [MAX_IDLE_CANDIDATES] using List.length_take_le MAX_IDLE_CANDIDATES _
  · intro cs hcs
    have hcount := countP_scanner_requests_of s.db _
      (inactive_candidates_nodup now s.db hnd) cs hcs
    constructor
    · intro hlen
      have hne : get_chat_history s.db cs.session_id ≠ [] := by
        intro hnil
        rw [hnil] at hlen
        simp at hlen
      rw [hreqs, hcount, if_pos ⟨hne, hlen⟩]
    · intro hlen
      rw [hreqs, hcount, if_neg]
      rintro ⟨-, h3⟩
      omega
  · intro r hr
    rw [hreqs] at hr
    obtain ⟨cs, _, _, htr⟩ := mem_scanner_requests_of hr
    exact htr

/-- C7, witnessed: of two idle candidates, the 3-message session gets
exactly one request and the 2-message session none. -/
theorem c7_scanner_min_messages_witness :
    (check_inactive_sessions (fun _ => .failure) Faults.none 10000
        ⟨⟨true, []⟩, {},
          { chat_sessions := [⟨1, "s1", none, none, 0⟩, ⟨2, "s2", none, none, 0⟩]
            chat_messages := [⟨1, "user", "a", 0⟩, ⟨1, "agent", "b", 1⟩,
              ⟨1, "user", "c", 2⟩, ⟨2, "user", "x", 0⟩, ⟨2, "agent", "y", 1⟩] },
          []⟩).2.countP
      (fun r => r.session_id = (⟨1, "s1", none, none, 0⟩ : ChatSessionRow).session_id)
        = 1 ∧
    (check_inactive_sessions (fun _ => .failure) Faults.none 10000
        ⟨⟨true, []⟩, {},
          { chat_sessions := [⟨1, "s1", none, none, 0⟩, ⟨2, "s2", none, none, 0⟩]
            chat_messages := [⟨1, "user", "a", 0⟩, ⟨1, "agent", "b", 1⟩,
              ⟨1, "user", "c", 2⟩, ⟨2, "user", "x", 0⟩, ⟨2, "agent", "y", 1⟩] },
          []⟩).2.countP
      (fun r => r.session_id = (⟨2, "s2", none, none, 0⟩ : ChatSessionRow).session_id)
        = 0 := by
  have h := c7_scanner_min_messages (fun _ => .failure) Faults.none 10000
    ⟨⟨true, []⟩, {},
      { chat_sessions := [⟨1, "s1", none, none, 0⟩, ⟨2, "s2", none, none, 0⟩]
        chat_messages := [⟨1, "user", "a", 0⟩, ⟨1, "agent", "b", 1⟩,
          ⟨1, "user", "c", 2⟩, ⟨2, "user", "x", 0⟩, ⟨2, "agent", "y", 1⟩] },
      []⟩ rfl rfl rfl (by decide)
  exact ⟨(h.2.1 ⟨1, "s1", none, none, 0⟩ (by decide)).1 (by decide),
    (h.2.1 ⟨2, "s2", none, none, 0⟩ (by decide)).2 (by decide)⟩

end Metrics
